import Mathlib

/-!
Verification of the user CRUD controllers (`controllers/userController.ts`)
of the InternPulse project, against a shallow embedding.

The store (`usersCollection`) is modelled as an in-memory list of user
records, with the MongoDB collection operations the controllers use
(`insertOne`, `findOne`, `updateOne`, `findOneAndUpdate`,
`findOneAndDelete`, `deleteOne`) given their document semantics: filters
are field-equality filters and each mutating call affects the first
matching record.  Each Express handler becomes a pure function from its
request inputs and the store state to a `HandlerResult`: the list of
responses it attempts to send (`res.status(c).json(b)` calls, in order),
the resulting store state, and the number of store calls it issued.
-/

/-- A stored user record: `_id` assigned by the store, plus a `name`. -/
structure User where
  id : String
  name : String
deriving Repr, DecidableEq

/-- The document store state: the `users` collection as a list of records,
the counter fresh ids are generated from, and whether the store
acknowledges inserts (the write-concern behaviour of the external store,
which the controller checks via `result.acknowledged`). -/
structure Store where
  users : List User
  nextId : Nat
  insertAck : Bool
deriving Repr, DecidableEq

/-- Hexadecimal characters, as accepted by `ObjectId.isValid`. -/
def isHexChar (c : Char) : Bool :=
  c.isDigit || (97 ≤ c.toNat && c.toNat ≤ 102) || (65 ≤ c.toNat && c.toNat ≤ 70)

/-- Embedding of `ObjectId.isValid` on strings: a 24-character hexadecimal
string, or a 12-character (12-byte) string. -/
def isValidObjectId (s : String) : Bool :=
  (s.length = 24 && s.toList.all isHexChar) || s.length = 12

/-- The id the store assigns to the `n`-th inserted record: `n` written in
hexadecimal, zero-padded to the 24 characters of an ObjectId. -/
def genId (n : Nat) : String :=
  let d := Nat.toDigits 16 n
  String.mk (List.replicate (24 - d.length) '0' ++ d)

/-- Result of `insertOne`: acknowledgment flag and the assigned id. -/
structure InsertOneResult where
  acknowledged : Bool
  insertedId : String
deriving Repr, DecidableEq

/-- `usersCollection.insertOne({name})`: append a fresh record; the
acknowledgment flag reports the store's write-concern behaviour. -/
def insertOne (s : Store) (name : String) : InsertOneResult × Store :=
  let u : User := ⟨genId s.nextId, name⟩
  (⟨s.insertAck, u.id⟩,
   { s with users := s.users ++ [u], nextId := s.nextId + 1 })

/-- `usersCollection.findOne({name})`: first record whose name matches. -/
def findOneByName (s : Store) (n : String) : Option User :=
  s.users.find? (fun u => u.name == n)

/-- `usersCollection.findOne({_id})`: first record whose id matches. -/
def findOneById (s : Store) (i : String) : Option User :=
  s.users.find? (fun u => u.id == i)

/-- Result of `updateOne`: matched and modified counts. -/
structure UpdateResult where
  matchedCount : Nat
  modifiedCount : Nat
deriving Repr, DecidableEq

/-- Rename the first record whose name is `old` to `nw`. -/
def setNameFirst : List User → String → String → List User
  | [], _, _ => []
  | u :: rest, old, nw =>
    if u.name == old then { u with name := nw } :: rest
    else u :: setNameFirst rest old nw

/-- `usersCollection.updateOne({name: old}, {$set: {name: nw}})`. -/
def updateOne (s : Store) (old nw : String) : UpdateResult × Store :=
  match s.users.find? (fun u => u.name == old) with
  | none => (⟨0, 0⟩, s)
  | some _ =>
    (⟨1, if old == nw then 0 else 1⟩,
     { s with users := setNameFirst s.users old nw })

/-- Result shape of `findOneAndUpdate` / `findOneAndDelete` in the mongodb
v4 driver: a `ModifyResult` whose `value` holds the document or `null`. -/
structure ModifyResult where
  value : Option User
deriving Repr, DecidableEq

/-- Rename the first record whose id is `i` to `nm`, returning the
post-update document (`returnDocument: "after"`). -/
def updFirstById : List User → String → String → Option User × List User
  | [], _, _ => (none, [])
  | u :: rest, i, nm =>
    if u.id == i then
      (some { u with name := nm }, { u with name := nm } :: rest)
    else
      let r := updFirstById rest i nm
      (r.1, u :: r.2)

/-- `usersCollection.findOneAndUpdate({_id}, {$set: {name}},
{returnDocument: "after"})`. -/
def findOneAndUpdate (s : Store) (i nm : String) : ModifyResult × Store :=
  let r := updFirstById s.users i nm
  (⟨r.1⟩, { s with users := r.2 })

/-- Remove the first record whose id is `i`, returning its prior content. -/
def delFirstById : List User → String → Option User × List User
  | [], _ => (none, [])
  | u :: rest, i =>
    if u.id == i then (some u, rest)
    else
      let r := delFirstById rest i
      (r.1, u :: r.2)

/-- `usersCollection.findOneAndDelete({_id})`. -/
def findOneAndDelete (s : Store) (i : String) : ModifyResult × Store :=
  let r := delFirstById s.users i
  (⟨r.1⟩, { s with users := r.2 })

/-- Result of `deleteOne`: how many records were deleted (0 or 1). -/
structure DeleteResult where
  deletedCount : Nat
deriving Repr, DecidableEq

/-- Remove the first record whose name is `n`, counting removals. -/
def delFirstByName : List User → String → Nat × List User
  | [], _ => (0, [])
  | u :: rest, n =>
    if u.name == n then (1, rest)
    else
      let r := delFirstByName rest n
      (r.1, u :: r.2)

/-- `usersCollection.deleteOne({name})`. -/
def deleteOne (s : Store) (n : String) : DeleteResult × Store :=
  let r := delFirstByName s.users n
  (⟨r.1⟩, { s with users := r.2 })

/-- A JSON response body, as the handlers build them. -/
inductive Body where
  | msg (message : String)
  | msgUser (message : String) (user : User)
  | user (u : User)
deriving Repr, DecidableEq

/-- One `res.status(c).json(b)` call. -/
structure Response where
  status : Nat
  body : Body
deriving Repr, DecidableEq

/-- What a handler run produces: the responses it attempted to send in
order, the store state afterwards, and how many store calls it issued. -/
structure HandlerResult where
  responses : List Response
  store : Store
  storeOps : Nat
deriving Repr, DecidableEq

/-- JavaScript falsiness of an optional string input (`!name`): absent or
the empty string. -/
def falsyStr : Option String → Bool
  | none => true
  | some s => s == ""

/-- Embedding of `createUser`: validate `name`, `insertOne`, check the
acknowledgment, respond 201 with the new id and name. -/
def createUser (name : Option String) (s : Store) : HandlerResult :=
  match name with
  | none => ⟨[⟨400, .msg "Name is required"⟩], s, 0⟩
  | some n =>
    if n == "" then ⟨[⟨400, .msg "Name is required"⟩], s, 0⟩
    else
      let r := insertOne s n
      if !r.1.acknowledged then
        ⟨[⟨500, .msg "Failed to create user"⟩], r.2, 1⟩
      else
        ⟨[⟨201, .msgUser "User created successfully" ⟨r.1.insertedId, n⟩⟩],
         r.2, 1⟩

/-- Embedding of `getUserByName`: validate `name`, `findOne` by name,
404 when absent, otherwise 200 with the record. -/
def getUserByName (name : Option String) (s : Store) : HandlerResult :=
  match name with
  | none => ⟨[⟨400, .msg "Name is required"⟩], s, 0⟩
  | some n =>
    if n == "" then ⟨[⟨400, .msg "Name is required"⟩], s, 0⟩
    else
      match findOneByName s n with
      | none => ⟨[⟨404, .msg "User not found"⟩], s, 1⟩
      | some u => ⟨[⟨200, .user u⟩], s, 1⟩

/-- Embedding of `getUserById`: validate the id with `ObjectId.isValid`,
`findOne` by id, 404 when absent, otherwise 200 with the record. -/
def getUserById (id : String) (s : Store) : HandlerResult :=
  if !isValidObjectId id then ⟨[⟨400, .msg "Invalid user ID"⟩], s, 0⟩
  else
    match findOneById s id with
    | none => ⟨[⟨404, .msg "User not found"⟩], s, 1⟩
    | some u => ⟨[⟨200, .user u⟩], s, 1⟩

/-- Embedding of `updateUserByName`: validate both names, `updateOne` by
old name.  The `matchedCount === 0` branch sends 404 but does not return,
so execution falls through and the 200 success response is also sent:
both sends appear, in order, in `responses`. -/
def updateUserByName (oldName newName : Option String) (s : Store) :
    HandlerResult :=
  if falsyStr oldName || falsyStr newName then
    ⟨[⟨400, .msg "Both old name (query) and new name (body) are required"⟩],
     s, 0⟩
  else
    let r := updateOne s (oldName.getD "") (newName.getD "")
    let notFound : List Response :=
      if r.1.matchedCount == 0 then [⟨404, .msg "User not found"⟩] else []
    ⟨notFound ++ [⟨200, .msg "User updated successfully"⟩], r.2, 1⟩

/-- Embedding of `updateUserById`: validate the id, check existence with
`findOne`, then `findOneAndUpdate` returning the post-update document. -/
def updateUserById (id : String) (name : String) (s : Store) :
    HandlerResult :=
  if !isValidObjectId id then ⟨[⟨400, .msg "Invalid user ID"⟩], s, 0⟩
  else
    match findOneById s id with
    | none => ⟨[⟨404, .msg "User not found"⟩], s, 1⟩
    | some _ =>
      let r := findOneAndUpdate s id name
      match r.1.value with
      | none => ⟨[⟨404, .msg "User not found"⟩], r.2, 2⟩
      | some u =>
        ⟨[⟨200, .msgUser "User updated successfully" u⟩], r.2, 2⟩

/-- Embedding of `deleteUserById`: validate the id, `findOneAndDelete`,
404 when nothing was deleted, otherwise 200 with the prior content. -/
def deleteUserById (id : String) (s : Store) : HandlerResult :=
  if !isValidObjectId id then ⟨[⟨400, .msg "Invalid user ID"⟩], s, 0⟩
  else
    let r := findOneAndDelete s id
    match r.1.value with
    | none => ⟨[⟨404, .msg "User not found"⟩], r.2, 1⟩
    | some u => ⟨[⟨200, .msgUser "User deleted successfully" u⟩], r.2, 1⟩

/-- Embedding of `deleteUserByName`: validate `name`, `deleteOne` by name,
404 when the deleted count is zero, otherwise 200 with a message only. -/
def deleteUserByName (name : Option String) (s : Store) : HandlerResult :=
  if falsyStr name then
    ⟨[⟨400, .msg "Name query parameter is required"⟩], s, 0⟩
  else
    let r := deleteOne s (name.getD "")
    if r.1.deletedCount == 0 then ⟨[⟨404, .msg "User not found"⟩], r.2, 1⟩
    else ⟨[⟨200, .msg "User deleted successfully"⟩], r.2, 1⟩

/-! Helper lemmas about the list recursions behind the store operations. -/

/-- If the appended element satisfies `p`, `find?` over the extended list
succeeds with an element satisfying `p`. -/
theorem find?_append_singleton (l : List User) (p : User → Bool) (a : User)
    (h : p a = true) :
    ∃ u, List.find? p (l ++ [a]) = some u ∧ p u = true := by
  rw [List.find?_append]
  cases hf : l.find? p with
  | none => exact ⟨a, by simp [h], h⟩
  | some u => exact ⟨u, by simp, List.find?_some hf⟩

/-- `delFirstById` returns the first record with the given id and the list
with that record erased. -/
theorem delFirstById_eq (l : List User) (i : String) :
    delFirstById l i =
      (l.find? (fun u => u.id == i), l.eraseP (fun u => u.id == i)) := by
  induction l with
  | nil => rfl
  | cons u rest ih =>
    by_cases h : (u.id == i) = true
    · simp [delFirstById, h]
    · simp [delFirstById, h, ih]

/-- When some record has name `n`, `delFirstByName` deletes exactly one
record: the first one with that name. -/
theorem delFirstByName_pos (l : List User) (n : String)
    (h : ∃ u ∈ l, u.name = n) :
    delFirstByName l n = (1, l.eraseP (fun u => u.name == n)) := by
  induction l with
  | nil => simp at h
  | cons u rest ih =>
    by_cases hu : (u.name == n) = true
    · simp [delFirstByName, hu]
    · have hrest : ∃ v ∈ rest, v.name = n := by
        rcases h with ⟨v, hv, hname⟩
        rcases List.mem_cons.mp hv with h1 | h2
        · subst h1
          exact absurd hname (by simpa using hu)
        · exact ⟨v, h2, hname⟩
      simp [delFirstByName, hu, ih hrest]

/-- When no record has name `n`, `delFirstByName` deletes nothing. -/
theorem delFirstByName_neg (l : List User) (n : String)
    (h : ∀ u ∈ l, u.name ≠ n) :
    delFirstByName l n = (0, l) := by
  induction l with
  | nil => rfl
  | cons u rest ih =>
    have hu : (u.name == n) = false := by
      simp [h u (List.mem_cons_self u rest)]
    simp [delFirstByName, hu, ih (fun v hv => h v (List.mem_cons_of_mem u hv))]

/-- When no record has the given id, `updFirstById` is the identity. -/
theorem updFirstById_none (l : List User) (i nm : String)
    (h : l.find? (fun u => u.id == i) = none) :
    updFirstById l i nm = (none, l) := by
  induction l with
  | nil => rfl
  | cons u rest ih =>
    have hall := List.find?_eq_none.mp h
    have hu : (u.id == i) = false := by
      simpa using hall u (List.mem_cons_self u rest)
    have hrest : rest.find? (fun u => u.id == i) = none :=
      List.find?_eq_none.mpr fun v hv => hall v (List.mem_cons_of_mem u hv)
    simp [updFirstById, hu, ih hrest]

/-- When the first record with the given id is `u`, `updFirstById` returns
`u` renamed, and the resulting list's first record with that id is the
renamed `u`. -/
theorem updFirstById_some (l : List User) (i nm : String) (u : User)
    (h : l.find? (fun v => v.id == i) = some u) :
    (updFirstById l i nm).1 = some { u with name := nm } ∧
    (updFirstById l i nm).2.find? (fun v => v.id == i) =
      some { u with name := nm } := by
  induction l with
  | nil => simp at h
  | cons w rest ih =>
    cases hw : (w.id == i) with
    | true =>
      simp [hw] at h
      subst h
      constructor
      · simp [updFirstById, hw]
      · simp [updFirstById, hw]
    | false =>
      simp [hw] at h
      obtain ⟨ih1, ih2⟩ := ih h
      refine ⟨?_, ?_⟩
      · simp [updFirstById, hw, ih1]
      · simp [updFirstById, hw, ih2]

/-- C1: counterexample in the code.  On an UpdateByName request where both
names are present but no record matches the old name, the handler sends
the 404 response and then, because the `matchedCount === 0` branch does
not return, falls through and also sends the 200 success acknowledgment:
two responses, the success acknowledgment sent although no record
matched. -/
theorem updateByName_zero_match_sends_two_responses :
    (updateUserByName (some "Ghost") (some "New") ⟨[], 0, true⟩).responses =
      [⟨404, Body.msg "User not found"⟩,
       ⟨200, Body.msg "User updated successfully"⟩] := rfl

/-- C2: for every present, non-empty name, Create(name) followed by
FindByName(name) on the resulting store responds 200 with a record whose
`name` equals the input. -/
theorem create_then_findByName (s : Store) (n : String) (hn : n ≠ "")
    (hack : s.insertAck = true) :
    ∃ u : User,
      (getUserByName (some n) (createUser (some n) s).store).responses =
        [⟨200, Body.user u⟩] ∧ u.name = n := by
  have hbeq : (n == "") = false := by simpa using hn
  have hstore : (createUser (some n) s).store =
      { s with users := s.users ++ [⟨genId s.nextId, n⟩],
               nextId := s.nextId + 1 } := by
    simp [createUser, hbeq, insertOne, hack]
  obtain ⟨u, hfind, hp⟩ :=
    find?_append_singleton s.users (fun u => u.name == n) ⟨genId s.nextId, n⟩
      (by simp)
  refine ⟨u, ?_, by simpa using hp⟩
  simp [getUserByName, hbeq, hstore, findOneByName, hfind]

/-- Witness for `create_then_findByName`: name "John Doe", empty store. -/
theorem create_then_findByName_witness :
    ∃ u : User,
      (getUserByName (some "John Doe")
        (createUser (some "John Doe") ⟨[], 0, true⟩).store).responses =
        [⟨200, Body.user u⟩] ∧ u.name = "John Doe" :=
  create_then_findByName ⟨[], 0, true⟩ "John Doe" (by decide) rfl

/-- C3: for every syntactically invalid id, FindById and DeleteById both
respond 400 "Invalid user ID" with the store unchanged and no store
operation issued, whatever the store state. -/
theorem invalid_id_rejected (s : Store) (id : String)
    (h : isValidObjectId id = false) :
    getUserById id s = ⟨[⟨400, Body.msg "Invalid user ID"⟩], s, 0⟩ ∧
    deleteUserById id s = ⟨[⟨400, Body.msg "Invalid user ID"⟩], s, 0⟩ := by
  constructor <;> simp [getUserById, deleteUserById, h]

/-- Witness for `invalid_id_rejected` at id "invalid-id" on a non-empty
store. -/
theorem invalid_id_rejected_witness :
    getUserById "invalid-id" ⟨[⟨"a", "x"⟩], 3, true⟩ =
      ⟨[⟨400, Body.msg "Invalid user ID"⟩], ⟨[⟨"a", "x"⟩], 3, true⟩, 0⟩ ∧
    deleteUserById "invalid-id" ⟨[⟨"a", "x"⟩], 3, true⟩ =
      ⟨[⟨400, Body.msg "Invalid user ID"⟩], ⟨[⟨"a", "x"⟩], 3, true⟩, 0⟩ :=
  invalid_id_rejected ⟨[⟨"a", "x"⟩], 3, true⟩ "invalid-id" (by decide)

/-- C4: for every UpdateById request with a valid id, the handler looks the
record up first: when no record has that id it responds 404 with the store
unchanged; when one does, it performs the update and responds 200 with the
post-update record, the found record under the new name, which the store
now holds. -/
theorem updateById_lookup_first (s : Store) (id nm : String)
    (h : isValidObjectId id = true) :
    (findOneById s id = none →
      updateUserById id nm s = ⟨[⟨404, Body.msg "User not found"⟩], s, 1⟩) ∧
    (∀ u, findOneById s id = some u →
      (updateUserById id nm s).responses =
        [⟨200, Body.msgUser "User updated successfully"
            { u with name := nm }⟩] ∧
      findOneById (updateUserById id nm s).store id =
        some { u with name := nm }) := by
  constructor
  · intro hnone
    simp [updateUserById, h, hnone]
  · intro u hu
    have hfind : s.users.find? (fun v => v.id == id) = some u := by
      simpa [findOneById] using hu
    obtain ⟨h1, h2⟩ := updFirstById_some s.users id nm u hfind
    constructor
    · simp [updateUserById, h, hu, findOneAndUpdate, h1]
    · simp [updateUserById, h, findOneById, hfind, findOneAndUpdate, h1, h2]

/-- Witness for `updateById_lookup_first`: a store holding the record with
id "60d5f4813d4f3f2d4c9b53e7" named "Old", renamed to "New". -/
theorem updateById_lookup_first_witness :
    (updateUserById "60d5f4813d4f3f2d4c9b53e7" "New"
        ⟨[⟨"60d5f4813d4f3f2d4c9b53e7", "Old"⟩], 0, true⟩).responses =
      [⟨200, Body.msgUser "User updated successfully"
          ⟨"60d5f4813d4f3f2d4c9b53e7", "New"⟩⟩] ∧
    findOneById (updateUserById "60d5f4813d4f3f2d4c9b53e7" "New"
        ⟨[⟨"60d5f4813d4f3f2d4c9b53e7", "Old"⟩], 0, true⟩).store
        "60d5f4813d4f3f2d4c9b53e7" =
      some ⟨"60d5f4813d4f3f2d4c9b53e7", "New"⟩ :=
  (updateById_lookup_first ⟨[⟨"60d5f4813d4f3f2d4c9b53e7", "Old"⟩], 0, true⟩
      "60d5f4813d4f3f2d4c9b53e7" "New" (by decide)).2
    ⟨"60d5f4813d4f3f2d4c9b53e7", "Old"⟩ rfl

/-- C5: for every DeleteByName call with a present, non-empty name: when
some record matches, the record count drops by exactly one and the handler
responds 200 with a message only; when none matches, the store is
unchanged and it responds 404. -/
theorem deleteByName_count (s : Store) (n : String) (hn : n ≠ "") :
    ((∃ u ∈ s.users, u.name = n) →
      (deleteUserByName (some n) s).responses =
        [⟨200, Body.msg "User deleted successfully"⟩] ∧
      (deleteUserByName (some n) s).store.users.length + 1 =
        s.users.length) ∧
    ((∀ u ∈ s.users, u.name ≠ n) →
      deleteUserByName (some n) s =
        ⟨[⟨404, Body.msg "User not found"⟩], s, 1⟩) := by
  have hbeq : (n == "") = false := by simpa using hn
  constructor
  · intro hmem
    have hdel := delFirstByName_pos s.users n hmem
    constructor
    · simp [deleteUserByName, falsyStr, hbeq, deleteOne, hdel]
    · rcases hmem with ⟨u, hu, hname⟩
      have hlen := List.length_eraseP_of_mem hu (p := fun v => v.name == n)
        (by simp [hname])
      have hpos : 0 < s.users.length := List.length_pos.mpr
        (List.ne_nil_of_mem hu)
      simp [deleteUserByName, falsyStr, hbeq, deleteOne, hdel, hlen]
      omega
  · intro hnone
    have hdel := delFirstByName_neg s.users n hnone
    simp [deleteUserByName, falsyStr, hbeq, deleteOne, hdel]

/-- Witness for `deleteByName_count`: deleting "John Doe" from a two-record
store removes exactly that one record. -/
theorem deleteByName_count_witness :
    (deleteUserByName (some "John Doe")
        ⟨[⟨"a", "John Doe"⟩, ⟨"b", "Jane"⟩], 2, true⟩).responses =
      [⟨200, Body.msg "User deleted successfully"⟩] ∧
    (deleteUserByName (some "John Doe")
        ⟨[⟨"a", "John Doe"⟩, ⟨"b", "Jane"⟩], 2, true⟩).store.users.length + 1 =
      (⟨[⟨"a", "John Doe"⟩, ⟨"b", "Jane"⟩], 2, true⟩ : Store).users.length :=
  (deleteByName_count ⟨[⟨"a", "John Doe"⟩, ⟨"b", "Jane"⟩], 2, true⟩
      "John Doe" (by decide)).1
    ⟨⟨"a", "John Doe"⟩, by simp, rfl⟩

/-- C6: for every DeleteById call with a valid id: when a record with that
id exists, the handler removes the first such record and responds 200 with
the deleted record's prior content; when none exists, the store is
unchanged and it responds 404. -/
theorem deleteById_behaviour (s : Store) (id : String)
    (h : isValidObjectId id = true) :
    (∀ u, findOneById s id = some u →
      deleteUserById id s =
        ⟨[⟨200, Body.msgUser "User deleted successfully" u⟩],
         { s with users := s.users.eraseP (fun v => v.id == id) }, 1⟩) ∧
    (findOneById s id = none →
      deleteUserById id s = ⟨[⟨404, Body.msg "User not found"⟩], s, 1⟩) := by
  constructor
  · intro u hu
    have hfind : s.users.find? (fun v => v.id == id) = some u := by
      simpa [findOneById] using hu
    simp [deleteUserById, h, findOneAndDelete, delFirstById_eq, hfind]
  · intro hnone
    have hfind : s.users.find? (fun v => v.id == id) = none := by
      simpa [findOneById] using hnone
    have hall := List.find?_eq_none.mp hfind
    have herase : s.users.eraseP (fun v => v.id == id) = s.users :=
      List.eraseP_of_forall_not fun a ha => by simpa using hall a ha
    simp [deleteUserById, h, findOneAndDelete, delFirstById_eq, hfind, herase]

/-- Witness for `deleteById_behaviour`: deleting the present record with id
"60d5f4813d4f3f2d4c9b53e7" returns its prior content and removes it. -/
theorem deleteById_behaviour_witness :
    deleteUserById "60d5f4813d4f3f2d4c9b53e7"
        ⟨[⟨"60d5f4813d4f3f2d4c9b53e7", "User Name"⟩], 1, true⟩ =
      ⟨[⟨200, Body.msgUser "User deleted successfully"
          ⟨"60d5f4813d4f3f2d4c9b53e7", "User Name"⟩⟩],
       { (⟨[⟨"60d5f4813d4f3f2d4c9b53e7", "User Name"⟩], 1, true⟩ : Store) with
         users := (⟨[⟨"60d5f4813d4f3f2d4c9b53e7", "User Name"⟩], 1,
           true⟩ : Store).users.eraseP
             (fun v => v.id == "60d5f4813d4f3f2d4c9b53e7") }, 1⟩ :=
  (deleteById_behaviour ⟨[⟨"60d5f4813d4f3f2d4c9b53e7", "User Name"⟩], 1, true⟩
      "60d5f4813d4f3f2d4c9b53e7" (by decide)).1
    ⟨"60d5f4813d4f3f2d4c9b53e7", "User Name"⟩ rfl

/-- C7: Create responds 400 "Name is required" with the store unchanged and
no store operation when the name is absent or empty; with a present
non-empty name and an acknowledging store it appends the new record and
responds 201 with the assigned id and the given name. -/
theorem createUser_contract (s : Store) (name : Option String) :
    (falsyStr name = true →
      createUser name s = ⟨[⟨400, Body.msg "Name is required"⟩], s, 0⟩) ∧
    (∀ n, name = some n → n ≠ "" → s.insertAck = true →
      createUser name s =
        ⟨[⟨201, Body.msgUser "User created successfully"
            ⟨genId s.nextId, n⟩⟩],
         { s with users := s.users ++ [⟨genId s.nextId, n⟩],
                  nextId := s.nextId + 1 }, 1⟩) := by
  constructor
  · intro hf
    cases name with
    | none => rfl
    | some n =>
      have hb : (n == "") = true := by simpa [falsyStr] using hf
      simp [createUser, hb]
  · rintro n rfl hn hack
    have hbeq : (n == "") = false := by simpa using hn
    simp [createUser, hbeq, insertOne, hack]

/-- Witness for `createUser_contract`: absent name on a non-empty store,
and name "John Doe" inserted into the empty store. -/
theorem createUser_contract_witness :
    createUser none ⟨[⟨"a", "x"⟩], 1, true⟩ =
      ⟨[⟨400, Body.msg "Name is required"⟩], ⟨[⟨"a", "x"⟩], 1, true⟩, 0⟩ ∧
    createUser (some "John Doe") ⟨[], 0, true⟩ =
      ⟨[⟨201, Body.msgUser "User created successfully"
          ⟨genId 0, "John Doe"⟩⟩],
       ⟨[⟨genId 0, "John Doe"⟩], 1, true⟩, 1⟩ :=
  ⟨(createUser_contract ⟨[⟨"a", "x"⟩], 1, true⟩ none).1 rfl,
   (createUser_contract ⟨[], 0, true⟩ (some "John Doe")).2
     "John Doe" rfl (by decide) rfl⟩

/-- C8: with a present non-empty name and a store whose insert is not
acknowledged, Create responds 500 with a message body and no record. -/
theorem createUser_not_acknowledged (s : Store) (n : String) (hn : n ≠ "")
    (hack : s.insertAck = false) :
    (createUser (some n) s).responses =
      [⟨500, Body.msg "Failed to create user"⟩] := by
  have hbeq : (n == "") = false := by simpa using hn
  simp [createUser, hbeq, insertOne, hack]

/-- Witness for `createUser_not_acknowledged` at name "John Doe". -/
theorem createUser_not_acknowledged_witness :
    (createUser (some "John Doe") ⟨[], 0, false⟩).responses =
      [⟨500, Body.msg "Failed to create user"⟩] :=
  createUser_not_acknowledged ⟨[], 0, false⟩ "John Doe" (by decide) rfl

/-- `setNameFirst` on a list that splits as `before ++ u :: after`, where
nothing in `before` matches and `u` matches, renames exactly `u`. -/
theorem setNameFirst_split (old nw : String) :
    ∀ before : List User, (∀ v ∈ before, (v.name == old) = false) →
    ∀ (u : User) (after : List User), (u.name == old) = true →
      setNameFirst (before ++ u :: after) old nw =
        before ++ { u with name := nw } :: after := by
  intro before
  induction before with
  | nil =>
    intro _ u after hu
    simp [setNameFirst, hu]
  | cons w rest ih =>
    intro hb u after hu
    have hw : (w.name == old) = false := hb w (List.mem_cons_self w rest)
    simp [setNameFirst, hw,
      ih (fun v hv => hb v (List.mem_cons_of_mem w hv)) u after hu]

/-- C9: on every store where some record's name is "Old Name",
UpdateByName("Old Name", "New Name") renames exactly the first such
record, keeping its id, and leaves every record before and after it
unchanged. -/
theorem updateByName_frame (s : Store)
    (h : ∃ u ∈ s.users, u.name = "Old Name") :
    ∃ before u after,
      s.users = before ++ u :: after ∧ u.name = "Old Name" ∧
      (∀ v ∈ before, v.name ≠ "Old Name") ∧
      (updateUserByName (some "Old Name") (some "New Name") s).store.users =
        before ++ { id := u.id, name := "New Name" } :: after := by
  have hsome : (s.users.find? (fun u => u.name == "Old Name")).isSome := by
    rcases h with ⟨u, hu, hname⟩
    exact List.find?_isSome.mpr ⟨u, hu, by simp [hname]⟩
  obtain ⟨u, hfind⟩ := Option.isSome_iff_exists.mp hsome
  obtain ⟨hpu, before, after, hsplit, hbefore⟩ := List.find?_eq_some.mp hfind
  refine ⟨before, u, after, hsplit, by simpa using hpu,
    fun v hv => by simpa using hbefore v hv, ?_⟩
  have h1 : falsyStr (some "Old Name") = false := rfl
  have h2 : falsyStr (some "New Name") = false := rfl
  simp only [updateUserByName, h1, h2, Bool.or_self, Bool.false_eq_true,
    if_false, Option.getD_some, updateOne, hfind]
  rw [hsplit]
  exact setNameFirst_split "Old Name" "New Name" before
    (fun v hv => by simpa using hbefore v hv) u after (by simpa using hpu)

/-- Witness for `updateByName_frame`: a one-record store named "Old Name". -/
theorem updateByName_frame_witness :
    ∃ before u after,
      (⟨[⟨"a", "Old Name"⟩], 1, true⟩ : Store).users =
        before ++ u :: after ∧ u.name = "Old Name" ∧
      (∀ v ∈ before, v.name ≠ "Old Name") ∧
      (updateUserByName (some "Old Name") (some "New Name")
          ⟨[⟨"a", "Old Name"⟩], 1, true⟩).store.users =
        before ++ { id := u.id, name := "New Name" } :: after :=
  updateByName_frame ⟨[⟨"a", "Old Name"⟩], 1, true⟩
    ⟨⟨"a", "Old Name"⟩, by simp, rfl⟩

/-- C10: in every one of the seven handlers, input validation completely
precedes any store call: whenever a 400 response is among the responses
sent, the store state is unchanged and no store operation was issued. -/
theorem validation_precedes_store (s : Store)
    (bn qn onm nnm dn : Option String) (i1 i2 i3 nm : String) :
    ((∃ r ∈ (createUser bn s).responses, r.status = 400) →
      (createUser bn s).store = s ∧ (createUser bn s).storeOps = 0) ∧
    ((∃ r ∈ (getUserByName qn s).responses, r.status = 400) →
      (getUserByName qn s).store = s ∧ (getUserByName qn s).storeOps = 0) ∧
    ((∃ r ∈ (getUserById i1 s).responses, r.status = 400) →
      (getUserById i1 s).store = s ∧ (getUserById i1 s).storeOps = 0) ∧
    ((∃ r ∈ (updateUserByName onm nnm s).responses, r.status = 400) →
      (updateUserByName onm nnm s).store = s ∧
      (updateUserByName onm nnm s).storeOps = 0) ∧
    ((∃ r ∈ (updateUserById i2 nm s).responses, r.status = 400) →
      (updateUserById i2 nm s).store = s ∧
      (updateUserById i2 nm s).storeOps = 0) ∧
    ((∃ r ∈ (deleteUserById i3 s).responses, r.status = 400) →
      (deleteUserById i3 s).store = s ∧ (deleteUserById i3 s).storeOps = 0) ∧
    ((∃ r ∈ (deleteUserByName dn s).responses, r.status = 400) →
      (deleteUserByName dn s).store = s ∧
      (deleteUserByName dn s).storeOps = 0) := by
  refine ⟨?_, ?_, ?_, ?_, ?_, ?_, ?_⟩ <;> rintro ⟨r, hr, h400⟩
  · cases bn with
    | none => exact ⟨rfl, rfl⟩
    | some n =>
      cases hb : (n == "") with
      | true => simp [createUser, hb]
      | false =>
        cases hack : s.insertAck with
        | true =>
          simp [createUser, hb, insertOne, hack] at hr
          simp [hr] at h400
        | false =>
          simp [createUser, hb, insertOne, hack] at hr
          simp [hr] at h400
  · cases qn with
    | none => exact ⟨rfl, rfl⟩
    | some n =>
      cases hb : (n == "") with
      | true => simp [getUserByName, hb]
      | false =>
        cases hf : findOneByName s n with
        | none =>
          simp [getUserByName, hb, hf] at hr
          simp [hr] at h400
        | some u =>
          simp [getUserByName, hb, hf] at hr
          simp [hr] at h400
  · cases hv : isValidObjectId i1 with
    | false => simp [getUserById, hv]
    | true =>
      cases hf : findOneById s i1 with
      | none =>
        simp [getUserById, hv, hf] at hr
        simp [hr] at h400
      | some u =>
        simp [getUserById, hv, hf] at hr
        simp [hr] at h400
  · cases hfo : falsyStr onm || falsyStr nnm with
    | true => simp [updateUserByName, hfo]
    | false =>
      cases hfind : s.users.find? (fun u => u.name == (onm.getD "")) with
      | none =>
        simp [updateUserByName, hfo, updateOne, hfind] at hr
        rcases hr with hr | hr <;> simp [hr] at h400
      | some u =>
        simp [updateUserByName, hfo, updateOne, hfind] at hr
        simp [hr] at h400
  · cases hv : isValidObjectId i2 with
    | false => simp [updateUserById, hv]
    | true =>
      cases hf : findOneById s i2 with
      | none =>
        simp [updateUserById, hv, hf] at hr
        simp [hr] at h400
      | some u =>
        cases hval : (updFirstById s.users i2 nm).1 with
        | none =>
          simp [updateUserById, hv, hf, findOneAndUpdate, hval] at hr
          simp [hr] at h400
        | some w =>
          simp [updateUserById, hv, hf, findOneAndUpdate, hval] at hr
          simp [hr] at h400
  · cases hv : isValidObjectId i3 with
    | false => simp [deleteUserById, hv]
    | true =>
      cases hval : (delFirstById s.users i3).1 with
      | none =>
        simp [deleteUserById, hv, findOneAndDelete, hval] at hr
        simp [hr] at h400
      | some u =>
        simp [deleteUserById, hv, findOneAndDelete, hval] at hr
        simp [hr] at h400
  · cases hfo : falsyStr dn with
    | true => simp [deleteUserByName, hfo]
    | false =>
      cases hd : (delFirstByName s.users (dn.getD "")).1 with
      | zero =>
        simp [deleteUserByName, hfo, deleteOne, hd] at hr
        simp [hr] at h400
      | succ k =>
        simp [deleteUserByName, hfo, deleteOne, hd] at hr
        simp [hr] at h400

/-- Witness for `validation_precedes_store`: a Create request with the name
absent leaves the store untouched with no store call. -/
theorem validation_precedes_store_witness :
    (createUser none ⟨[⟨"a", "x"⟩], 1, true⟩).store = ⟨[⟨"a", "x"⟩], 1, true⟩ ∧
    (createUser none ⟨[⟨"a", "x"⟩], 1, true⟩).storeOps = 0 :=
  (validation_precedes_store ⟨[⟨"a", "x"⟩], 1, true⟩ none none none none none
      "i1" "i2" "i3" "nm").1
    ⟨⟨400, Body.msg "Name is required"⟩, by simp [createUser], rfl⟩
